import Mathlib

/-!
Shallow embedding of the multi-provider LLM dispatch layer of the
Docket-ai-portal backend (`src/backend/app/settings.py`,
`src/backend/app/llm.py`, `src/backend/app/schemas.py`,
`src/backend/app/chat.py`).

Python semantics modelled explicitly:
* attribute access on the pydantic `Settings` object is a partial lookup —
  reading an attribute that is not a declared field raises `AttributeError`;
* string truthiness (`if s:` is false for `None` and for `""`);
* `str.replace(a, b)` replaces every non-overlapping occurrence, left to right;
* `str.split()` with no argument splits on whitespace runs and drops empties;
* floats carry no arithmetic in this code (they are only stored, passed and
  compared for equality), so they are modelled injectively by `Rat`.

Network calls are modelled by oracle functions passed to each adapter; every
adapter also returns the list of outbound requests it actually issued, so that
"no network call was attempted" and the exact outbound payload are provable.
-/

namespace DocketPortal

/-- Python exceptions that the embedded code can raise or propagate. -/
inductive PyError where
  /-- `ValueError(msg)` raised by the adapters' credential checks. -/
  | valueError (msg : String)
  /-- `AttributeError` from reading a missing attribute of the settings object. -/
  | attributeError (attr : String)
  /-- any failure coming out of an outbound network call (SDK error, non-2xx,
      timeout, malformed body), fed in through the network oracle. -/
  | requestError (msg : String)
deriving DecidableEq

/-- Python `str(e)` for the exceptions above (the message the caller sees). -/
def PyError.pyStr : PyError → String
  | .valueError m => m
  | .attributeError a => "'Settings' object has no attribute '" ++ a ++ "'"
  | .requestError m => m

/-- Python truthiness of a string: `""` is falsy, everything else truthy. -/
def pyTruthyStr (s : String) : Bool := !s.isEmpty

/-- Python `a or b` for `a : Optional[str]`: `b` when `a` is `None` or `""`. -/
def pyOrStr (a : Option String) (b : String) : String :=
  match a with
  | none => b
  | some s => if s.isEmpty then b else s

/-- `listStarts pat l` : does `l` start with `pat`? -/
def listStarts : List Char → List Char → Bool
  | [], _ => true
  | _ :: _, [] => false
  | a :: pat, b :: l => a == b && listStarts pat l

/-- Python `s.startswith(pre)`. -/
def pyStartsWith (s pre : String) : Bool := listStarts pre.data s.data

/-- `listHas needle hay` : does `needle` occur as a contiguous run of `hay`? -/
def listHas (needle : List Char) : List Char → Bool
  | [] => listStarts needle []
  | c :: rest => listStarts needle (c :: rest) || listHas needle rest

/-- Python `needle in hay` for strings (substring containment). -/
def pyContains (hay needle : String) : Bool := listHas needle.data hay.data

/-- Fueled worker for Python `str.replace`: replace each non-overlapping
occurrence of `needle`, scanning left to right. -/
def pyReplaceAux (needle repl : List Char) : Nat → List Char → List Char
  | 0, hay => hay
  | _ + 1, [] => []
  | fuel + 1, c :: rest =>
    if needle ≠ [] && listStarts needle (c :: rest) then
      repl ++ pyReplaceAux needle repl fuel ((c :: rest).drop needle.length)
    else
      c :: pyReplaceAux needle repl fuel rest

/-- Python `s.replace(needle, repl)` (all occurrences; the code only ever uses
non-empty needles, for which the fuel `s.length` is always sufficient). -/
def pyReplace (s needle repl : String) : String :=
  ⟨pyReplaceAux needle.data repl.data s.data.length s.data⟩

/-- Worker for Python `s.split()`: accumulate the current word (reversed). -/
def pyWordsAux (cur : List Char) : List Char → List (List Char)
  | [] => if cur.isEmpty then [] else [cur.reverse]
  | c :: rest =>
    if c.isWhitespace then
      if cur.isEmpty then pyWordsAux [] rest
      else cur.reverse :: pyWordsAux [] rest
    else pyWordsAux (c :: cur) rest

/-- `len(s.split())`: number of whitespace-separated words of `s`. -/
def wordCount (s : String) : Nat := (pyWordsAux [] s.data).length

/-- The Python float literal `0.7` (the default `temperature`).  The code
never does float arithmetic — temperatures are only stored, passed along and
compared for equality — so any injective representation of floats preserves
the observable behavior; the literal is represented by the rational `7/10`,
written as a raw structure literal so that kernel reduction (`decide`) works.
`defaultTemperature_eq_lit` ties it to the `0.7` notation. -/
def defaultTemperature : Rat := ⟨7, 10, by decide, by decide⟩

theorem defaultTemperature_eq_lit : defaultTemperature = 0.7 := by
  rw [show (0.7 : Rat) = Rat.ofScientific 7 true 1 from rfl, Rat.ofScientific_true_def]
  decide

/-! ## `settings.py` — the `Settings` pydantic model

The fields below are exactly the fields declared by `class Settings` in
`src/backend/app/settings.py`.  `model_config` has `extra: "ignore"`, so the
environment cannot add attributes: every instance exposes exactly these. -/

/-- A value held by a settings field (`str` or `int`). -/
inductive PyVal where
  | str (s : String)
  | int (n : Int)
deriving DecidableEq

/-- Python truthiness of a settings value. -/
def PyVal.truthy : PyVal → Bool
  | .str s => pyTruthyStr s
  | .int n => n ≠ 0

/-- The `Settings` object of `src/backend/app/settings.py` (all declared
fields, with their declared defaults). -/
structure Settings where
  database_url : String := "postgresql+psycopg://aiportal:change_me@db:5432/aiportal"
  jwt_secret : String := "change_me_to_long_random"
  jwt_expire_minutes : Int := 120
  jwt_algorithm : String := "HS256"
  llm_provider : String := "openai"
  openai_api_key : String := ""
  openai_model : String := "gpt-4o-mini"
  azure_openai_api_key : String := ""
  azure_openai_endpoint : String := ""
  azure_openai_deployment : String := ""
  azure_openai_api_version : String := "2024-02-15-preview"
  anthropic_api_key : String := ""
  google_api_key : String := ""
deriving DecidableEq

/-- Python attribute access `settings.<name>`: returns the field's value, or
raises `AttributeError` when `Settings` declares no such field (pydantic with
`extra: "ignore"` stores nothing beyond the declared fields). -/
def Settings.pyGetattr (s : Settings) : String → Except PyError PyVal
  | "database_url" => .ok (.str s.database_url)
  | "jwt_secret" => .ok (.str s.jwt_secret)
  | "jwt_expire_minutes" => .ok (.int s.jwt_expire_minutes)
  | "jwt_algorithm" => .ok (.str s.jwt_algorithm)
  | "llm_provider" => .ok (.str s.llm_provider)
  | "openai_api_key" => .ok (.str s.openai_api_key)
  | "openai_model" => .ok (.str s.openai_model)
  | "azure_openai_api_key" => .ok (.str s.azure_openai_api_key)
  | "azure_openai_endpoint" => .ok (.str s.azure_openai_endpoint)
  | "azure_openai_deployment" => .ok (.str s.azure_openai_deployment)
  | "azure_openai_api_version" => .ok (.str s.azure_openai_api_version)
  | "anthropic_api_key" => .ok (.str s.anthropic_api_key)
  | "google_api_key" => .ok (.str s.google_api_key)
  | name => .error (.attributeError name)

/-! ## `llm.py` — routing table, client state, initialization -/

/-- `MODEL_PROVIDERS` : the exact-match model-to-provider table of `llm.py`. -/
def MODEL_PROVIDERS : List (String × String) :=
  [ ("gpt-5.2", "openai"),
    ("gpt-5.2-pro", "openai"),
    ("gpt-5-mini", "openai"),
    ("gpt-4o", "openai"),
    ("gpt-4o-mini", "openai"),
    ("claude-opus-4-5-20251101", "anthropic"),
    ("claude-sonnet-4-5-20250929", "anthropic"),
    ("claude-haiku-3-5-20241022", "anthropic"),
    ("gemini-2.5-flash", "google"),
    ("gemini-2.5-pro", "google"),
    ("gemini-2.0-flash", "google"),
    ("llama-3.3-70b-versatile", "groq"),
    ("llama-3.1-8b-instant", "groq"),
    ("mixtral-8x7b-32768", "groq"),
    ("gemma2-9b-it", "groq"),
    ("openrouter/auto", "openrouter"),
    ("openrouter/mistralai/mistral-7b-instruct:free", "openrouter"),
    ("openrouter/google/gemma-2-9b-it:free", "openrouter"),
    ("openrouter/meta-llama/llama-3.2-3b-instruct:free", "openrouter"),
    ("ollama/llama3.2", "ollama"),
    ("ollama/mistral", "ollama"),
    ("ollama/codellama", "ollama"),
    ("ollama/phi3", "ollama") ]

/-- The mutable client fields that `MultiLLMProvider.__init__` sets up: for the
SDK clients only their presence matters (`None` vs an initialized client). -/
structure ClientsState where
  openai_client : Bool := false
  anthropic_client : Bool := false
  google_configured : Bool := false
  groq_client : Bool := false
  openrouter_client : Bool := false
  ollama_base_url : Option String := none
deriving DecidableEq

namespace MultiLLMProvider

/-- `MultiLLMProvider._init_clients`, reading each key off the settings object
by Python attribute access, in source order. -/
def init_clients (s : Settings) : Except PyError ClientsState := do
  let mut st : ClientsState := {}
  let k ← s.pyGetattr "openai_api_key"
  if k.truthy then st := { st with openai_client := true }
  let k ← s.pyGetattr "anthropic_api_key"
  if k.truthy then st := { st with anthropic_client := true }
  let k ← s.pyGetattr "google_api_key"
  if k.truthy then st := { st with google_configured := true }
  let k ← s.pyGetattr "groq_api_key"
  if k.truthy then st := { st with groq_client := true }
  let k ← s.pyGetattr "openrouter_api_key"
  if k.truthy then st := { st with openrouter_client := true }
  let k ← s.pyGetattr "ollama_base_url"
  if k.truthy then
    match k with
    | .str u => st := { st with ollama_base_url := some u }
    | .int _ => pure ()
  return st

/-- `MultiLLMProvider._get_provider_for_model`. -/
def get_provider_for_model (model : String) : String :=
  if pyStartsWith model "ollama/" then "ollama"
  else if pyStartsWith model "openrouter/" then "openrouter"
  else (MODEL_PROVIDERS.lookup model).getD "openai"

end MultiLLMProvider

/-! ## `llm.py` — outbound request shapes and provider responses -/

/-- A chat message (`{"role": ..., "content": ...}`). -/
structure Message where
  role : String
  content : String
deriving DecidableEq

/-- The payload `_chat_openai` hands to
`openai_client.chat.completions.create`; exactly one of the two token-limit
parameters is present, per the `gpt-5` branch. -/
structure OpenAIRequest where
  model : String
  messages : List Message
  max_tokens : Option Int := none
  max_completion_tokens : Option Int := none
  temperature : Rat
deriving DecidableEq

/-- The `kwargs` that `_chat_anthropic` passes to `messages.create`; `system`
and `temperature` are keys added only conditionally. -/
structure AnthropicRequest where
  model : String
  max_tokens : Int
  messages : List Message
  system : Option String := none
  temperature : Option Rat := none
deriving DecidableEq

/-- What `_chat_google` passes to `GenerativeModel(...)` and
`generate_content(prompt)`. -/
structure GoogleRequest where
  model_name : String
  max_output_tokens : Int
  temperature : Rat
  system_instruction : Option String
  prompt : String
deriving DecidableEq

/-- The payload `_chat_groq` hands to the Groq client (OpenAI-compatible). -/
structure GroqRequest where
  model : String
  messages : List Message
  max_tokens : Int
  temperature : Rat
deriving DecidableEq

/-- The payload `_chat_openrouter` hands to the OpenRouter client. -/
structure OpenRouterRequest where
  model : String
  messages : List Message
  max_tokens : Int
  temperature : Rat
deriving DecidableEq

/-- The JSON body `_chat_ollama` POSTs to `{base_url}/api/chat`. -/
structure OllamaRequest where
  url : String
  model : String
  messages : List Message
  stream : Bool
  num_predict : Int
  temperature : Rat
deriving DecidableEq

/-- One outbound network call, as recorded in an adapter's trace. -/
inductive OutboundCall where
  | openai (req : OpenAIRequest)
  | anthropic (req : AnthropicRequest)
  | google (req : GoogleRequest)
  | groq (req : GroqRequest)
  | openrouter (req : OpenRouterRequest)
  | ollama (req : OllamaRequest)
deriving DecidableEq

/-- An OpenAI-style chat-completion response: the SDK's typed response always
carries a `usage` object with integer counts. -/
structure OpenAIResponse where
  content : String
  prompt_tokens : Int
  completion_tokens : Int
deriving DecidableEq

/-- An Anthropic response (`content[0].text`, `usage.input_tokens`,
`usage.output_tokens`). -/
structure AnthropicResponse where
  content_text : String
  input_tokens : Int
  output_tokens : Int
deriving DecidableEq

/-- A Google response: `usage_metadata` attributes may be absent, which the
code probes with `getattr(..., default)`. -/
structure GoogleResponse where
  text : String
  prompt_token_count : Option Int
  candidates_token_count : Option Int
deriving DecidableEq

/-- An OpenRouter usage object. -/
structure ORUsage where
  prompt_tokens : Int
  completion_tokens : Int
deriving DecidableEq

/-- An OpenRouter response: `response.usage` may be `None` (falsy). -/
structure OpenRouterResponse where
  content : String
  usage : Option ORUsage
deriving DecidableEq

/-- An Ollama JSON response: the token-count keys may be missing from the
dict, which the code probes with `dict.get(..., default)`. -/
structure OllamaResponse where
  message_content : String
  prompt_eval_count : Option Int
  eval_count : Option Int
deriving DecidableEq

/-- The canonical adapter result `(response_text, prompt_tokens,
completion_tokens)`. -/
abbrev ChatResult := String × Int × Int

/-- An adapter outcome: the Python return value or raised exception, plus the
trace of outbound network calls actually issued. -/
abbrev AdapterOutcome := Except PyError ChatResult × List OutboundCall

namespace MultiLLMProvider

/-- `MultiLLMProvider._chat_openai`. -/
def chat_openai (st : ClientsState) (net : OpenAIRequest → Except PyError OpenAIResponse)
    (prompt model : String) (system_prompt : Option String)
    (max_tokens : Int) (temperature : Rat) : AdapterOutcome :=
  if !st.openai_client then
    (.error (.valueError "OpenAI API key not configured"), [])
  else
    let messages :=
      (if pyTruthyStr (system_prompt.getD "") then
        [⟨"system", system_prompt.getD ""⟩] else []) ++ [⟨"user", prompt⟩]
    let req : OpenAIRequest :=
      if pyStartsWith model "gpt-5" then
        { model := model, messages := messages,
          max_completion_tokens := some max_tokens, temperature := temperature }
      else
        { model := model, messages := messages,
          max_tokens := some max_tokens, temperature := temperature }
    match net req with
    | .error e => (.error e, [.openai req])
    | .ok resp =>
      (.ok (resp.content, resp.prompt_tokens, resp.completion_tokens), [.openai req])

/-- `MultiLLMProvider._chat_anthropic`. -/
def chat_anthropic (st : ClientsState)
    (net : AnthropicRequest → Except PyError AnthropicResponse)
    (prompt model : String) (system_prompt : Option String)
    (max_tokens : Int) (temperature : Rat) : AdapterOutcome :=
  if !st.anthropic_client then
    (.error (.valueError "Anthropic API key not configured"), [])
  else
    let kwargs : AnthropicRequest :=
      { model := model, max_tokens := max_tokens, messages := [⟨"user", prompt⟩] }
    let kwargs :=
      if pyTruthyStr (system_prompt.getD "") then
        { kwargs with system := some (system_prompt.getD "") }
      else kwargs
    let kwargs :=
      if temperature ≠ defaultTemperature then { kwargs with temperature := some temperature }
      else kwargs
    match net kwargs with
    | .error e => (.error e, [.anthropic kwargs])
    | .ok resp =>
      (.ok (resp.content_text, resp.input_tokens, resp.output_tokens), [.anthropic kwargs])

/-- `MultiLLMProvider._chat_google`. -/
def chat_google (st : ClientsState)
    (net : GoogleRequest → Except PyError GoogleResponse)
    (prompt model : String) (system_prompt : Option String)
    (max_tokens : Int) (temperature : Rat) : AdapterOutcome :=
  if !st.google_configured then
    (.error (.valueError "Google API key not configured"), [])
  else
    let req : GoogleRequest :=
      { model_name := model, max_output_tokens := max_tokens,
        temperature := temperature,
        system_instruction :=
          if pyTruthyStr (system_prompt.getD "") then system_prompt else none,
        prompt := prompt }
    match net req with
    | .error e => (.error e, [.google req])
    | .ok resp =>
      let prompt_tokens := resp.prompt_token_count.getD (↑(wordCount prompt) * 2)
      let completion_tokens := resp.candidates_token_count.getD (↑(wordCount resp.text) * 2)
      (.ok (resp.text, prompt_tokens, completion_tokens), [.google req])

/-- `MultiLLMProvider._chat_groq`. -/
def chat_groq (st : ClientsState)
    (net : GroqRequest → Except PyError OpenAIResponse)
    (prompt model : String) (system_prompt : Option String)
    (max_tokens : Int) (temperature : Rat) : AdapterOutcome :=
  if !st.groq_client then
    (.error (.valueError "Groq API key not configured"), [])
  else
    let messages :=
      (if pyTruthyStr (system_prompt.getD "") then
        [⟨"system", system_prompt.getD ""⟩] else []) ++ [⟨"user", prompt⟩]
    let req : GroqRequest :=
      { model := model, messages := messages,
        max_tokens := max_tokens, temperature := temperature }
    match net req with
    | .error e => (.error e, [.groq req])
    | .ok resp =>
      (.ok (resp.content, resp.prompt_tokens, resp.completion_tokens), [.groq req])

/-- `MultiLLMProvider._chat_openrouter`. -/
def chat_openrouter (st : ClientsState)
    (net : OpenRouterRequest → Except PyError OpenRouterResponse)
    (prompt model : String) (system_prompt : Option String)
    (max_tokens : Int) (temperature : Rat) : AdapterOutcome :=
  if !st.openrouter_client then
    (.error (.valueError "OpenRouter API key not configured"), [])
  else
    let actual_model := pyReplace model "openrouter/" ""
    let messages :=
      (if pyTruthyStr (system_prompt.getD "") then
        [⟨"system", system_prompt.getD ""⟩] else []) ++ [⟨"user", prompt⟩]
    let req : OpenRouterRequest :=
      { model := actual_model, messages := messages,
        max_tokens := max_tokens, temperature := temperature }
    match net req with
    | .error e => (.error e, [.openrouter req])
    | .ok resp =>
      let prompt_tokens :=
        match resp.usage with
        | some u => u.prompt_tokens
        | none => ↑(wordCount prompt) * 2
      let completion_tokens :=
        match resp.usage with
        | some u => u.completion_tokens
        | none => ↑(wordCount resp.content) * 2
      (.ok (resp.content, prompt_tokens, completion_tokens), [.openrouter req])

/-- `MultiLLMProvider._chat_ollama`. -/
def chat_ollama (st : ClientsState)
    (net : OllamaRequest → Except PyError OllamaResponse)
    (prompt model : String) (system_prompt : Option String)
    (max_tokens : Int) (temperature : Rat) : AdapterOutcome :=
  match st.ollama_base_url with
  | none => (.error (.valueError "Ollama base URL not configured"), [])
  | some base_url =>
    let actual_model := pyReplace model "ollama/" ""
    let messages :=
      (if pyTruthyStr (system_prompt.getD "") then
        [⟨"system", system_prompt.getD ""⟩] else []) ++ [⟨"user", prompt⟩]
    let req : OllamaRequest :=
      { url := base_url ++ "/api/chat", model := actual_model, messages := messages,
        stream := false, num_predict := max_tokens, temperature := temperature }
    match net req with
    | .error e => (.error e, [.ollama req])
    | .ok data =>
      let response_text := data.message_content
      let prompt_tokens := data.prompt_eval_count.getD (↑(wordCount prompt) * 2)
      let completion_tokens := data.eval_count.getD (↑(wordCount response_text) * 2)
      (.ok (response_text, prompt_tokens, completion_tokens), [.ollama req])

end MultiLLMProvider

/-- The bundle of network oracles, one per provider backend. -/
structure NetOracles where
  openai : OpenAIRequest → Except PyError OpenAIResponse
  anthropic : AnthropicRequest → Except PyError AnthropicResponse
  google : GoogleRequest → Except PyError GoogleResponse
  groq : GroqRequest → Except PyError OpenAIResponse
  openrouter : OpenRouterRequest → Except PyError OpenRouterResponse
  ollama : OllamaRequest → Except PyError OllamaResponse

instance {ε α : Type} [DecidableEq ε] [DecidableEq α] : DecidableEq (Except ε α) := fun x y =>
  match x, y with
  | .ok a, .ok b => if h : a = b then .isTrue (by rw [h]) else .isFalse (by simp [h])
  | .error a, .error b => if h : a = b then .isTrue (by rw [h]) else .isFalse (by simp [h])
  | .ok _, .error _ => .isFalse (by simp)
  | .error _, .ok _ => .isFalse (by simp)

/-- The observable outcome of one `MultiLLMProvider.chat` call: Python result
or exception, which adapters were invoked (provider tag and the prompt handed
to them), and the outbound network calls issued. -/
structure ChatOutcome where
  result : Except PyError ChatResult
  adapterCalls : List (String × String)
  netCalls : List OutboundCall
deriving DecidableEq

namespace MultiLLMProvider

/-- `MultiLLMProvider.chat`: default the model (Python `or`, so `None` and
`""` both fall back), resolve the provider, dispatch to exactly one adapter;
the `except` block re-raises the original exception unchanged. -/
def chat (st : ClientsState) (nets : NetOracles) (defaultModel : String)
    (prompt : String) (model : Option String := none)
    (system_prompt : Option String := none)
    (max_tokens : Int := 2048) (temperature : Rat := defaultTemperature) : ChatOutcome :=
  let m := pyOrStr model defaultModel
  let provider := get_provider_for_model m
  let out : AdapterOutcome :=
    if provider == "anthropic" then
      chat_anthropic st nets.anthropic prompt m system_prompt max_tokens temperature
    else if provider == "google" then
      chat_google st nets.google prompt m system_prompt max_tokens temperature
    else if provider == "groq" then
      chat_groq st nets.groq prompt m system_prompt max_tokens temperature
    else if provider == "openrouter" then
      chat_openrouter st nets.openrouter prompt m system_prompt max_tokens temperature
    else if provider == "ollama" then
      chat_ollama st nets.ollama prompt m system_prompt max_tokens temperature
    else
      chat_openai st nets.openai prompt m system_prompt max_tokens temperature
  { result := out.1, adapterCalls := [(provider, prompt)], netCalls := out.2 }

end MultiLLMProvider

/-! ## `schemas.py` and the `chat.py` route handler -/

/-- `ChatRequest` of `schemas.py`: `prompt: str`, `model: Optional[str]`
(pydantic accepts the empty string for `prompt`). -/
structure ChatRequest where
  prompt : String
  model : Option String := none
deriving DecidableEq

/-- `ChatResponse` of `schemas.py`. -/
structure ChatResponse where
  response : String
  model : String
  prompt_tokens : Option Int := none
  completion_tokens : Option Int := none
deriving DecidableEq

/-- A FastAPI `HTTPException` as raised by the route handler. -/
structure HTTPExc where
  status_code : Int
  detail : String
deriving DecidableEq

/-- The `POST /chat` handler of `chat.py` (persistence of chat/usage logs is
an excluded collaborator and is omitted): picks the model with Python `or`,
calls `llm.chat(prompt, model)` with the remaining defaults, and wraps any
exception into a 500 `HTTPException` whose detail embeds `str(e)`. -/
def route_chat (st : ClientsState) (nets : NetOracles) (defaultModel : String)
    (request : ChatRequest) : Except HTTPExc ChatResponse :=
  let model := pyOrStr request.model defaultModel
  let outcome := MultiLLMProvider.chat st nets defaultModel request.prompt (some model)
  match outcome.result with
  | .ok (response_text, prompt_tokens, completion_tokens) =>
    .ok { response := response_text, model := model,
          prompt_tokens := some prompt_tokens,
          completion_tokens := some completion_tokens }
  | .error e =>
    .error { status_code := 500,
             detail := "Failed to get response from LLM: " ++ e.pyStr }

/-- `get_available_models` of `llm.py`: builds the list gated per provider,
reading each key off the settings object by Python attribute access. -/
def get_available_models (s : Settings) : Except PyError (List String) := do
  let mut models : List String := []
  let k ← s.pyGetattr "openai_api_key"
  if k.truthy then
    models := models ++ ["gpt-5.2", "gpt-5.2-pro", "gpt-5-mini", "gpt-4o", "gpt-4o-mini"]
  let k ← s.pyGetattr "anthropic_api_key"
  if k.truthy then
    models := models ++
      ["claude-opus-4-5-20251101", "claude-sonnet-4-5-20250929", "claude-haiku-3-5-20241022"]
  let k ← s.pyGetattr "google_api_key"
  if k.truthy then
    models := models ++ ["gemini-2.5-flash", "gemini-2.5-pro", "gemini-2.0-flash"]
  let k ← s.pyGetattr "groq_api_key"
  if k.truthy then
    models := models ++
      ["llama-3.3-70b-versatile", "llama-3.1-8b-instant", "mixtral-8x7b-32768", "gemma2-9b-it"]
  let k ← s.pyGetattr "openrouter_api_key"
  if k.truthy then
    models := models ++
      ["openrouter/auto", "openrouter/mistralai/mistral-7b-instruct:free",
       "openrouter/google/gemma-2-9b-it:free",
       "openrouter/meta-llama/llama-3.2-3b-instruct:free"]
  let k ← s.pyGetattr "ollama_base_url"
  if k.truthy then
    models := models ++ ["ollama/llama3.2", "ollama/mistral", "ollama/codellama", "ollama/phi3"]
  return if models.isEmpty then ["gpt-4o-mini"] else models

/-! ## Helper projections and lemmas -/

/-- The outbound model identifier of a recorded call. -/
def OutboundCall.modelOf : OutboundCall → String
  | .openai r => r.model
  | .anthropic r => r.model
  | .google r => r.model_name
  | .groq r => r.model
  | .openrouter r => r.model
  | .ollama r => r.model

theorem listStarts_self_append (l r : List Char) : listStarts l (l ++ r) = true := by
  induction l with
  | nil => rfl
  | cons a as ih => simp [listStarts, ih]

theorem pyStartsWith_self_append (pre rest : String) :
    pyStartsWith (pre ++ rest) pre = true := by
  rw [pyStartsWith, String.data_append]
  exact listStarts_self_append _ _

/-! ## The claims -/

/-- **C1.** The claim states that constructing `MultiLLMProvider` (and hence
`_init_clients`) reads a presence flag for each of the six providers off the
settings object without raising.  In fact `Settings` declares no
`groq_api_key`, `openrouter_api_key` or `ollama_base_url` field (and
`extra: "ignore"` stores nothing else), so for **every** settings object the
initialization raises `AttributeError` at the read of `settings.groq_api_key`,
after the openai/anthropic/google reads succeed. -/
theorem C1_init_clients_attribute_error (s : Settings) :
    MultiLLMProvider.init_clients s = .error (.attributeError "groq_api_key") := by
  have hb : ∀ {α β : Type} (a : α) (f : α → Except PyError β), (Except.ok a >>= f) = f a :=
    fun a f => rfl
  have he : ∀ {α β : Type} (e : PyError) (f : α → Except PyError β),
      ((Except.error e : Except PyError α) >>= f) = Except.error e := fun e f => rfl
  have h1 : s.pyGetattr "openai_api_key" = .ok (.str s.openai_api_key) := rfl
  have h2 : s.pyGetattr "anthropic_api_key" = .ok (.str s.anthropic_api_key) := rfl
  have h3 : s.pyGetattr "google_api_key" = .ok (.str s.google_api_key) := rfl
  have h4 : s.pyGetattr "groq_api_key" = .error (.attributeError "groq_api_key") := rfl
  simp only [MultiLLMProvider.init_clients, h1, h2, h3, h4, hb, he, ite_self]
  rfl

/-- **C5.** The claim states that `get_available_models` is deterministic and
always returns a non-empty list.  In fact, for **every** settings object the
function raises `AttributeError` at the read of `settings.groq_api_key`
(`Settings` declares no such field), so it never returns a list at all. -/
theorem C5_get_available_models_attribute_error (s : Settings) :
    get_available_models s = .error (.attributeError "groq_api_key") := by
  have hb : ∀ {α β : Type} (a : α) (f : α → Except PyError β), (Except.ok a >>= f) = f a :=
    fun a f => rfl
  have he : ∀ {α β : Type} (e : PyError) (f : α → Except PyError β),
      ((Except.error e : Except PyError α) >>= f) = Except.error e := fun e f => rfl
  have h1 : s.pyGetattr "openai_api_key" = .ok (.str s.openai_api_key) := rfl
  have h2 : s.pyGetattr "anthropic_api_key" = .ok (.str s.anthropic_api_key) := rfl
  have h3 : s.pyGetattr "google_api_key" = .ok (.str s.google_api_key) := rfl
  have h4 : s.pyGetattr "groq_api_key" = .error (.attributeError "groq_api_key") := rfl
  simp only [get_available_models, h1, h2, h3, h4, hb, he, ite_self]
  rfl

/-- **C4.** `_get_provider_for_model` resolves: `"ollama"` for identifiers
starting with `"ollama/"`, else `"openrouter"` for those starting with
`"openrouter/"`, else the exact-match table entry, else `"openai"`; the prefix
rule applies to every identifier carrying the prefix — including
`"openrouter/auto"` and `"ollama/llama3.2"`, which are also literal keys of
`MODEL_PROVIDERS` — and the function takes no credential state at all. -/
theorem C4_get_provider_for_model_spec :
    (∀ m, MultiLLMProvider.get_provider_for_model m =
      if pyStartsWith m "ollama/" then "ollama"
      else if pyStartsWith m "openrouter/" then "openrouter"
      else (MODEL_PROVIDERS.lookup m).getD "openai") ∧
    (∀ rest, MultiLLMProvider.get_provider_for_model ("ollama/" ++ rest) = "ollama") ∧
    (∀ rest, MultiLLMProvider.get_provider_for_model ("openrouter/" ++ rest) = "openrouter") ∧
    MODEL_PROVIDERS.lookup "openrouter/auto" = some "openrouter" ∧
    MODEL_PROVIDERS.lookup "ollama/llama3.2" = some "ollama" ∧
    MultiLLMProvider.get_provider_for_model "openrouter/auto" = "openrouter" ∧
    MultiLLMProvider.get_provider_for_model "ollama/llama3.2" = "ollama" := by
  refine ⟨fun m => rfl, fun rest => ?_, fun rest => ?_, by decide, by decide, by decide, by decide⟩
  · simp [MultiLLMProvider.get_provider_for_model, pyStartsWith_self_append]
  · have h1 : pyStartsWith ("openrouter/" ++ rest) "ollama/" = false := by
      rw [pyStartsWith, String.data_append]; rfl
    simp [MultiLLMProvider.get_provider_for_model, h1, pyStartsWith_self_append]

/-- A network oracle bundle whose every call succeeds with a fixed response
(used to instantiate the theorems at concrete inputs). -/
def stubNets : NetOracles where
  openai := fun _ => .ok { content := "ok", prompt_tokens := 3, completion_tokens := 4 }
  anthropic := fun _ => .ok { content_text := "ok", input_tokens := 3, output_tokens := 4 }
  google := fun _ => .ok { text := "ok", prompt_token_count := some 3, candidates_token_count := some 4 }
  groq := fun _ => .ok { content := "ok", prompt_tokens := 3, completion_tokens := 4 }
  openrouter := fun _ => .ok { content := "ok", usage := some ⟨3, 4⟩ }
  ollama := fun _ => .ok { message_content := "ok", prompt_eval_count := some 3, eval_count := some 4 }

/-- A bundle whose openai backend fails with the message `boom`. -/
def boomNets : NetOracles :=
  { stubNets with openai := fun _ => .error (.requestError "boom") }

/-- **C2** (corrected).  `chat` performs no prompt validation at all: a request
with the empty prompt is dispatched to the resolved provider's adapter exactly
like any other request — one adapter invocation, carrying the empty prompt. -/
theorem C2_empty_prompt_dispatched (st : ClientsState) (nets : NetOracles)
    (dm : String) (model : Option String) (sp : Option String) (mt : Int) (t : Rat) :
    (MultiLLMProvider.chat st nets dm "" model sp mt t).adapterCalls =
      [(MultiLLMProvider.get_provider_for_model (pyOrStr model dm), "")] := rfl

/-- **C2**, counterexample to the claim as stated: with no model requested and
no credentials configured, `chat` on the empty prompt performs one adapter
call (the claim demands zero) and fails with the adapter's
not-configured `ValueError`, not with any `InvalidRequest` condition. -/
theorem C2_counterexample :
    (MultiLLMProvider.chat {} stubNets "gpt-4o-mini" "").adapterCalls.length = 1 ∧
    (MultiLLMProvider.chat {} stubNets "gpt-4o-mini" "").result =
      .error (.valueError "OpenAI API key not configured") := by
  exact ⟨rfl, by decide⟩

/-- **C3** (corrected).  On any adapter failure the dispatcher re-raises the
original exception unchanged, having invoked exactly one adapter — the
resolved one — with no retry and no fallback; the route layer then wraps it
into a 500 `HTTPException` whose detail carries the original failure message.
No `ProviderCallFailed` wrapper carrying the provider tag exists. -/
theorem C3_failure_reraised_no_fallback (st : ClientsState) (nets : NetOracles)
    (dm : String) (request : ChatRequest) (e : PyError)
    (h : (MultiLLMProvider.chat st nets dm request.prompt
            (some (pyOrStr request.model dm))).result = .error e) :
    route_chat st nets dm request =
      .error { status_code := 500, detail := "Failed to get response from LLM: " ++ e.pyStr } ∧
    (MultiLLMProvider.chat st nets dm request.prompt
        (some (pyOrStr request.model dm))).adapterCalls =
      [(MultiLLMProvider.get_provider_for_model
          (pyOrStr (some (pyOrStr request.model dm)) dm), request.prompt)] := by
  constructor
  · simp only [route_chat]
    rw [h]
  · rfl

theorem C3_failure_witness :
    route_chat { openai_client := true } boomNets "gpt-4o-mini"
        { prompt := "hello", model := some "gpt-4o" } =
      .error { status_code := 500, detail := "Failed to get response from LLM: boom" } ∧
    (MultiLLMProvider.chat { openai_client := true } boomNets "gpt-4o-mini" "hello"
        (some "gpt-4o")).adapterCalls = [("openai", "hello")] := by
  have h := C3_failure_reraised_no_fallback { openai_client := true } boomNets "gpt-4o-mini"
      { prompt := "hello", model := some "gpt-4o" } (.requestError "boom") (by decide)
  exact ⟨h.1, h.2⟩

/-- **C3**, counterexample to the claim as stated: the error the caller
receives carries the original cause `boom` but does not carry the resolved
provider tag `openai` anywhere in its message. -/
theorem C3_counterexample :
    route_chat { openai_client := true } boomNets "gpt-4o-mini"
        { prompt := "hi", model := some "gpt-4o" } =
      .error { status_code := 500, detail := "Failed to get response from LLM: boom" } ∧
    pyContains "Failed to get response from LLM: boom" "openai" = false := by
  exact ⟨by decide, by decide⟩

/-- **C6.** Each of the six adapters, when its required credential is absent
(`None` client / unset flag / missing base URL), raises its not-configured
`ValueError` and issues no outbound network call at all. -/
theorem C6_unconfigured_fails_before_network :
    (∀ (st : ClientsState) net p m sp mt t, st.openai_client = false →
      MultiLLMProvider.chat_openai st net p m sp mt t =
        (.error (.valueError "OpenAI API key not configured"), [])) ∧
    (∀ (st : ClientsState) net p m sp mt t, st.anthropic_client = false →
      MultiLLMProvider.chat_anthropic st net p m sp mt t =
        (.error (.valueError "Anthropic API key not configured"), [])) ∧
    (∀ (st : ClientsState) net p m sp mt t, st.google_configured = false →
      MultiLLMProvider.chat_google st net p m sp mt t =
        (.error (.valueError "Google API key not configured"), [])) ∧
    (∀ (st : ClientsState) net p m sp mt t, st.groq_client = false →
      MultiLLMProvider.chat_groq st net p m sp mt t =
        (.error (.valueError "Groq API key not configured"), [])) ∧
    (∀ (st : ClientsState) net p m sp mt t, st.openrouter_client = false →
      MultiLLMProvider.chat_openrouter st net p m sp mt t =
        (.error (.valueError "OpenRouter API key not configured"), [])) ∧
    (∀ (st : ClientsState) net p m sp mt t, st.ollama_base_url = none →
      MultiLLMProvider.chat_ollama st net p m sp mt t =
        (.error (.valueError "Ollama base URL not configured"), [])) := by
  refine ⟨?_, ?_, ?_, ?_, ?_, ?_⟩ <;> intro st net p m sp mt t h <;>
    simp [MultiLLMProvider.chat_openai, MultiLLMProvider.chat_anthropic,
      MultiLLMProvider.chat_google, MultiLLMProvider.chat_groq,
      MultiLLMProvider.chat_openrouter, MultiLLMProvider.chat_ollama, h]

theorem C6_witness :
    MultiLLMProvider.chat_openai {} stubNets.openai "p" "gpt-4o" none 2048 defaultTemperature =
      (.error (.valueError "OpenAI API key not configured"), []) ∧
    MultiLLMProvider.chat_anthropic {} stubNets.anthropic "p" "claude-opus-4-5-20251101" none 2048
        defaultTemperature =
      (.error (.valueError "Anthropic API key not configured"), []) ∧
    MultiLLMProvider.chat_google {} stubNets.google "p" "gemini-2.5-pro" none 2048
        defaultTemperature =
      (.error (.valueError "Google API key not configured"), []) ∧
    MultiLLMProvider.chat_groq {} stubNets.groq "p" "gemma2-9b-it" none 2048 defaultTemperature =
      (.error (.valueError "Groq API key not configured"), []) ∧
    MultiLLMProvider.chat_openrouter {} stubNets.openrouter "p" "openrouter/auto" none 2048
        defaultTemperature =
      (.error (.valueError "OpenRouter API key not configured"), []) ∧
    MultiLLMProvider.chat_ollama {} stubNets.ollama "p" "ollama/phi3" none 2048
        defaultTemperature =
      (.error (.valueError "Ollama base URL not configured"), []) := by
  refine ⟨C6_unconfigured_fails_before_network.1 {} stubNets.openai "p" "gpt-4o" none 2048
      defaultTemperature rfl,
    C6_unconfigured_fails_before_network.2.1 {} stubNets.anthropic "p" "claude-opus-4-5-20251101"
      none 2048 defaultTemperature rfl,
    C6_unconfigured_fails_before_network.2.2.1 {} stubNets.google "p" "gemini-2.5-pro" none 2048
      defaultTemperature rfl,
    C6_unconfigured_fails_before_network.2.2.2.1 {} stubNets.groq "p" "gemma2-9b-it" none 2048
      defaultTemperature rfl,
    C6_unconfigured_fails_before_network.2.2.2.2.1 {} stubNets.openrouter "p" "openrouter/auto"
      none 2048 defaultTemperature rfl,
    C6_unconfigured_fails_before_network.2.2.2.2.2 {} stubNets.ollama "p" "ollama/phi3" none 2048
      defaultTemperature rfl⟩

/-- **C7.** Every successful adapter result carries both token counts:
the pass-through providers (openai, anthropic, groq) return the response's
exact counts (non-negative whenever the response's counts are), and the
estimating providers (google, openrouter, ollama) substitute
`word count × 2` of the corresponding text — independently per field —
whenever the response omits a count, so both fields are always populated and
non-negative. -/
theorem C7_token_counts :
    (∀ (st : ClientsState) p m sp mt t (resp : OpenAIResponse), st.openai_client = true →
      0 ≤ resp.prompt_tokens → 0 ≤ resp.completion_tokens →
      (MultiLLMProvider.chat_openai st (fun _ => .ok resp) p m sp mt t).1 =
        .ok (resp.content, resp.prompt_tokens, resp.completion_tokens)) ∧
    (∀ (st : ClientsState) p m sp mt t (resp : AnthropicResponse), st.anthropic_client = true →
      0 ≤ resp.input_tokens → 0 ≤ resp.output_tokens →
      (MultiLLMProvider.chat_anthropic st (fun _ => .ok resp) p m sp mt t).1 =
        .ok (resp.content_text, resp.input_tokens, resp.output_tokens)) ∧
    (∀ (st : ClientsState) p m sp mt t (resp : OpenAIResponse), st.groq_client = true →
      0 ≤ resp.prompt_tokens → 0 ≤ resp.completion_tokens →
      (MultiLLMProvider.chat_groq st (fun _ => .ok resp) p m sp mt t).1 =
        .ok (resp.content, resp.prompt_tokens, resp.completion_tokens)) ∧
    (∀ (st : ClientsState) p m sp mt t (resp : GoogleResponse), st.google_configured = true →
      (∀ n, resp.prompt_token_count = some n → 0 ≤ n) →
      (∀ n, resp.candidates_token_count = some n → 0 ≤ n) →
      (MultiLLMProvider.chat_google st (fun _ => .ok resp) p m sp mt t).1 =
        .ok (resp.text, resp.prompt_token_count.getD (↑(wordCount p) * 2),
             resp.candidates_token_count.getD (↑(wordCount resp.text) * 2)) ∧
      0 ≤ resp.prompt_token_count.getD (↑(wordCount p) * 2) ∧
      0 ≤ resp.candidates_token_count.getD (↑(wordCount resp.text) * 2)) ∧
    (∀ (st : ClientsState) p m sp mt t (resp : OpenRouterResponse), st.openrouter_client = true →
      (∀ u, resp.usage = some u → 0 ≤ u.prompt_tokens ∧ 0 ≤ u.completion_tokens) →
      (MultiLLMProvider.chat_openrouter st (fun _ => .ok resp) p m sp mt t).1 =
        .ok (resp.content,
             (resp.usage.map ORUsage.prompt_tokens).getD (↑(wordCount p) * 2),
             (resp.usage.map ORUsage.completion_tokens).getD (↑(wordCount resp.content) * 2)) ∧
      0 ≤ (resp.usage.map ORUsage.prompt_tokens).getD (↑(wordCount p) * 2) ∧
      0 ≤ (resp.usage.map ORUsage.completion_tokens).getD (↑(wordCount resp.content) * 2)) ∧
    (∀ (st : ClientsState) p m sp mt t u (resp : OllamaResponse), st.ollama_base_url = some u →
      (∀ n, resp.prompt_eval_count = some n → 0 ≤ n) →
      (∀ n, resp.eval_count = some n → 0 ≤ n) →
      (MultiLLMProvider.chat_ollama st (fun _ => .ok resp) p m sp mt t).1 =
        .ok (resp.message_content, resp.prompt_eval_count.getD (↑(wordCount p) * 2),
             resp.eval_count.getD (↑(wordCount resp.message_content) * 2)) ∧
      0 ≤ resp.prompt_eval_count.getD (↑(wordCount p) * 2) ∧
      0 ≤ resp.eval_count.getD (↑(wordCount resp.message_content) * 2)) := by
  have hwc : ∀ (s : String), (0 : Int) ≤ ↑(wordCount s) * 2 := fun s => by positivity
  refine ⟨?_, ?_, ?_, ?_, ?_, ?_⟩
  · intro st p m sp mt t resp hc _ _
    simp [MultiLLMProvider.chat_openai, hc]
  · intro st p m sp mt t resp hc _ _
    simp [MultiLLMProvider.chat_anthropic, hc]
  · intro st p m sp mt t resp hc _ _
    simp [MultiLLMProvider.chat_groq, hc]
  · intro st p m sp mt t resp hc h1 h2
    refine ⟨by simp [MultiLLMProvider.chat_google, hc], ?_, ?_⟩
    · cases hp : resp.prompt_token_count with
      | none => exact hwc p
      | some n => exact h1 n hp
    · cases hp : resp.candidates_token_count with
      | none => exact hwc resp.text
      | some n => exact h2 n hp
  · intro st p m sp mt t resp hc h1
    refine ⟨?_, ?_, ?_⟩
    · cases hu : resp.usage with
      | none => simp [MultiLLMProvider.chat_openrouter, hc, hu]
      | some u => simp [MultiLLMProvider.chat_openrouter, hc, hu]
    · cases hu : resp.usage with
      | none => exact hwc p
      | some u => exact (h1 u hu).1
    · cases hu : resp.usage with
      | none => exact hwc resp.content
      | some u => exact (h1 u hu).2
  · intro st p m sp mt t u resp hc h1 h2
    refine ⟨by simp [MultiLLMProvider.chat_ollama, hc], ?_, ?_⟩
    · cases hp : resp.prompt_eval_count with
      | none => exact hwc p
      | some n => exact h1 n hp
    · cases hp : resp.eval_count with
      | none => exact hwc resp.message_content
      | some n => exact h2 n hp

theorem C7_witness :
    (MultiLLMProvider.chat_openai { openai_client := true }
        (fun _ => .ok { content := "ok", prompt_tokens := 3, completion_tokens := 4 })
        "hello there" "gpt-4o" none 2048 defaultTemperature).1 = .ok ("ok", 3, 4) ∧
    ((MultiLLMProvider.chat_google { google_configured := true }
        (fun _ => .ok { text := "one two three", prompt_token_count := none,
                        candidates_token_count := none })
        "hello there" "gemini-2.5-pro" none 2048 defaultTemperature).1 =
      .ok ("one two three", 4, 6) ∧ (0 : Int) ≤ 4 ∧ (0 : Int) ≤ 6) ∧
    ((MultiLLMProvider.chat_openrouter { openrouter_client := true }
        (fun _ => .ok { content := "a b", usage := none })
        "hello" "openrouter/auto" none 2048 defaultTemperature).1 =
      .ok ("a b", 2, 4) ∧ (0 : Int) ≤ 2 ∧ (0 : Int) ≤ 4) := by
  refine ⟨C7_token_counts.1 { openai_client := true } "hello there" "gpt-4o" none 2048
      defaultTemperature { content := "ok", prompt_tokens := 3, completion_tokens := 4 }
      rfl (by decide) (by decide), ?_, ?_⟩
  · have h := C7_token_counts.2.2.2.1 { google_configured := true } "hello there" "gemini-2.5-pro"
      none 2048 defaultTemperature
      { text := "one two three", prompt_token_count := none, candidates_token_count := none }
      rfl (fun n hn => by cases hn) (fun n hn => by cases hn)
    exact ⟨h.1, h.2.1, h.2.2⟩
  · have h := C7_token_counts.2.2.2.2.1 { openrouter_client := true } "hello" "openrouter/auto"
      none 2048 defaultTemperature { content := "a b", usage := none }
      rfl (fun u hu => by cases hu)
    exact ⟨h.1, h.2.1, h.2.2⟩

/-- **C8** (corrected).  The openrouter and ollama adapters compute the
outbound model identifier with Python `str.replace`, which removes **every**
occurrence of the `"openrouter/"` (resp. `"ollama/"`) substring, not only a
leading one; for identifiers in which the substring occurs only as the leading
occurrence — such as the spec's example — this coincides with removing the
leading prefix. -/
theorem C8_outbound_model_replace_all :
    (∀ (st : ClientsState) net p m sp mt t, st.openrouter_client = true →
      (MultiLLMProvider.chat_openrouter st net p m sp mt t).2.map OutboundCall.modelOf =
        [pyReplace m "openrouter/" ""]) ∧
    (∀ (st : ClientsState) net p m sp mt t u, st.ollama_base_url = some u →
      (MultiLLMProvider.chat_ollama st net p m sp mt t).2.map OutboundCall.modelOf =
        [pyReplace m "ollama/" ""]) ∧
    pyReplace "openrouter/mistralai/mistral-7b-instruct:free" "openrouter/" "" =
      "mistralai/mistral-7b-instruct:free" ∧
    pyReplace "ollama/llama3.2" "ollama/" "" = "llama3.2" := by
  refine ⟨?_, ?_, by decide, by decide⟩
  · intro st net p m sp mt t h
    simp only [MultiLLMProvider.chat_openrouter, h, Bool.not_true, Bool.false_eq_true, if_false]
    split <;> simp [OutboundCall.modelOf]
  · intro st net p m sp mt t u h
    simp only [MultiLLMProvider.chat_ollama, h]
    split <;> simp [OutboundCall.modelOf]

theorem C8_witness :
    (MultiLLMProvider.chat_openrouter { openrouter_client := true } stubNets.openrouter
        "hello" "openrouter/mistralai/mistral-7b-instruct:free" none 2048
        defaultTemperature).2.map OutboundCall.modelOf =
      [pyReplace "openrouter/mistralai/mistral-7b-instruct:free" "openrouter/" ""] ∧
    (MultiLLMProvider.chat_ollama { ollama_base_url := some "http://localhost:11434" }
        stubNets.ollama "hello" "ollama/llama3.2" none 2048
        defaultTemperature).2.map OutboundCall.modelOf =
      [pyReplace "ollama/llama3.2" "ollama/" ""] := by
  exact ⟨C8_outbound_model_replace_all.1 { openrouter_client := true } stubNets.openrouter
      "hello" "openrouter/mistralai/mistral-7b-instruct:free" none 2048 defaultTemperature rfl,
    C8_outbound_model_replace_all.2.1 { ollama_base_url := some "http://localhost:11434" }
      stubNets.ollama "hello" "ollama/llama3.2" none 2048 defaultTemperature
      "http://localhost:11434" rfl⟩

/-- **C8**, counterexample to the claim as stated: for the identifier
`"openrouter/openrouter/auto"`, which begins with `"openrouter/"`, the claim
demands the outbound identifier `"openrouter/auto"` (leading prefix removed,
remainder unchanged), but the adapter sends `"auto"`. -/
theorem C8_counterexample :
    pyStartsWith "openrouter/openrouter/auto" "openrouter/" = true ∧
    (MultiLLMProvider.chat_openrouter { openrouter_client := true } stubNets.openrouter
        "hello" "openrouter/openrouter/auto" none 2048
        defaultTemperature).2.map OutboundCall.modelOf = ["auto"] ∧
    ("auto" : String) ≠ "openrouter/auto" := by decide

/-- **C9** (corrected).  For the anthropic adapter the outbound `kwargs` are:
one user message with the prompt (never a system message), the system prompt
as the top-level `system` field when it is present **and non-empty** (an
empty-string system prompt is falsy in Python and is dropped like an absent
one), and `temperature` present exactly when it differs from the default
`0.7`. -/
theorem C9_anthropic_request_shape (st : ClientsState)
    (net : AnthropicRequest → Except PyError AnthropicResponse)
    (p m : String) (sp : Option String) (mt : Int) (t : Rat)
    (h : st.anthropic_client = true) :
    (MultiLLMProvider.chat_anthropic st net p m sp mt t).2 =
      [.anthropic { model := m, max_tokens := mt, messages := [⟨"user", p⟩],
                    system := if pyTruthyStr (sp.getD "") then some (sp.getD "") else none,
                    temperature := if t = defaultTemperature then none else some t }] := by
  simp only [MultiLLMProvider.chat_anthropic, h, Bool.not_true, Bool.false_eq_true, if_false]
  by_cases hs : pyTruthyStr (sp.getD "") <;> by_cases ht : t = defaultTemperature <;>
    simp [hs, ht] <;> split <;> simp_all

theorem C9_witness :
    (MultiLLMProvider.chat_anthropic { anthropic_client := true } stubNets.anthropic
        "hello" "claude-opus-4-5-20251101" (some "be brief") 2048 ⟨1, 1, by decide, by decide⟩).2 =
      [.anthropic { model := "claude-opus-4-5-20251101", max_tokens := 2048,
                    messages := [⟨"user", "hello"⟩], system := some "be brief",
                    temperature := some ⟨1, 1, by decide, by decide⟩ }] := by
  have h := C9_anthropic_request_shape { anthropic_client := true } stubNets.anthropic
    "hello" "claude-opus-4-5-20251101" (some "be brief") 2048 ⟨1, 1, by decide, by decide⟩ rfl
  rw [h]
  decide

/-- **C9**, counterexample to the claim as stated: a request with the system
prompt present but equal to `""` produces an outbound call whose top-level
`system` field is absent, although the claim says a present system prompt is
always placed as a top-level field. -/
theorem C9_counterexample :
    (MultiLLMProvider.chat_anthropic { anthropic_client := true } stubNets.anthropic
        "hello" "claude-opus-4-5-20251101" (some "") 2048 defaultTemperature).2 =
      [.anthropic { model := "claude-opus-4-5-20251101", max_tokens := 2048,
                    messages := [⟨"user", "hello"⟩], system := none,
                    temperature := none }] ∧
    (some "" : Option String) ≠ none := by decide

/-- **C10.** The openai adapter's outbound call carries the token limit as
`max_completion_tokens` exactly when the model identifier starts with
`"gpt-5"`, and as `max_tokens` otherwise; in both cases the value is the
request's `max_tokens`, and the rest of the payload is the messages list and
the temperature. -/
theorem C10_openai_token_limit_param (st : ClientsState)
    (net : OpenAIRequest → Except PyError OpenAIResponse)
    (p m : String) (sp : Option String) (mt : Int) (t : Rat)
    (h : st.openai_client = true) :
    (MultiLLMProvider.chat_openai st net p m sp mt t).2 =
      [.openai { model := m,
                 messages := (if pyTruthyStr (sp.getD "") then [⟨"system", sp.getD ""⟩]
                   else []) ++ [⟨"user", p⟩],
                 max_tokens := if pyStartsWith m "gpt-5" then none else some mt,
                 max_completion_tokens := if pyStartsWith m "gpt-5" then some mt else none,
                 temperature := t }] := by
  simp only [MultiLLMProvider.chat_openai, h, Bool.not_true, Bool.false_eq_true, if_false]
  by_cases hm : pyStartsWith m "gpt-5" <;> simp [hm] <;> split <;> simp_all

theorem C10_witness :
    (MultiLLMProvider.chat_openai { openai_client := true } stubNets.openai
        "hello" "gpt-5.2" none 2048 defaultTemperature).2 =
      [.openai { model := "gpt-5.2", messages := [⟨"user", "hello"⟩],
                 max_tokens := none, max_completion_tokens := some 2048,
                 temperature := defaultTemperature }] ∧
    (MultiLLMProvider.chat_openai { openai_client := true } stubNets.openai
        "hello" "gpt-4o" none 2048 defaultTemperature).2 =
      [.openai { model := "gpt-4o", messages := [⟨"user", "hello"⟩],
                 max_tokens := some 2048, max_completion_tokens := none,
                 temperature := defaultTemperature }] := by
  constructor
  · have h := C10_openai_token_limit_param { openai_client := true } stubNets.openai
      "hello" "gpt-5.2" none 2048 defaultTemperature rfl
    rw [h]; decide
  · have h := C10_openai_token_limit_param { openai_client := true } stubNets.openai
      "hello" "gpt-4o" none 2048 defaultTemperature rfl
    rw [h]; decide

end DocketPortal
